import Mathlib

/-!
Shallow embedding of the i.MXRT1170 PLL clock driver
(drivers/clk/imx/clk-pll-imxrt1170.c; the Arm-PLL register layout and
recalc formula are shared verbatim with drivers/clk/imx/clk-pllarm-imxrt1170.c).

Registers are 32-bit (`u32`; `unsigned long` is also 32 bits on this
Cortex-M7 target), modelled as `Nat` with an explicit `% 2 ^ 32` where the
C arithmetic can wrap.  Hardware register traffic is modelled as an explicit
trace of events (register writes, microsecond delays, stable-bit polls); the
outcome of a stable-bit poll is an oracle parameter standing for the
hardware's lock behaviour.  Every operation takes the value returned by its
initial `readl_relaxed(pll->base)` as an explicit argument and returns the
value its final `writel_relaxed` leaves in the register where relevant.
-/

namespace ImxRt1170

/-- Modulus of a `u32` register. -/
def U32_MOD : Nat := 2 ^ 32

/-- All-ones 32-bit value; C `~mask` on a `u32` is `U32_MAX ^^^ mask`. -/
def U32_MAX : Nat := 2 ^ 32 - 1

/-- Linux `BIT(n)`. -/
def BIT (n : Nat) : Nat := 2 ^ n

/-- Linux `GENMASK(h, l)`: bits `l..h` inclusive set. -/
def GENMASK (h l : Nat) : Nat := 2 ^ (h + 1) - 2 ^ l

/-- 32-bit bitwise complement, as used by C `val &= ~mask` on `u32`. -/
def compl32 (m : Nat) : Nat := U32_MAX ^^^ m

/-! Register-layout macros from clk-pll-imxrt1170.c. -/

def ARMPLL_DIV_SHIFT : Nat := 0x0
def ARMPLL_DIV_MASK : Nat := 0xff
def ARMPLL_PDIV_SHIFT : Nat := 15
def ARMPLL_PDIV_MASK : Nat := GENMASK 16 15

def ARMPLL_HOLD_RING_OFF_MASK : Nat := BIT 12
def SYSPLL_HOLD_RING_OFF_MASK : Nat := BIT 11

def ARMPLL_PWRUP_MASK : Nat := BIT 13
def SYSPLL2_PWRUP_MASK : Nat := BIT 23
def SYSPLL3_PWRUP_MASK : Nat := BIT 21

def ARMPLL_CLKE_MASK : Nat := BIT 14
def SYSPLL_CLKE_MASK : Nat := BIT 13

def PLL1_GATE_MASK : Nat := BIT 14

def STABLE_MASK : Nat := BIT 29
def GATE_MASK : Nat := BIT 30

/-- PLL lock timeouts (µs) after the powerup bit is set. -/
def ARMPLL_LOCK_TIME : Nat := 60
def SYSPLL2_LOCK_TIME : Nat := 500
def SYSPLL3_LOCK_TIME : Nat := 60

/-- `static const unsigned int pdiv_table[] = { 2, 4, 8, 1 };` -/
def pdiv_table : List Nat := [2, 4, 8, 1]

/-- `enum imxrt1170_pll_type` (members used by this driver). -/
inductive PllType where
  | pllarm
  | pll1
  | pll2
  | pll3
deriving DecidableEq, Repr

/-- Mask fields of `struct clk_pll_imxrt1170` (the `hw`, `base` and `type`
fields are represented by passing register values and the `PllType`
explicitly). Field order: powerup, enable, stable, gate, hold_ring_off,
div_mask, div_shift, pdiv_mask, pdiv_shift. -/
structure PllConf where
  powerup_mask : Nat
  enable_mask : Nat
  stable_mask : Nat
  gate_mask : Nat
  hold_ring_off_mask : Nat
  div_mask : Nat
  div_shift : Nat
  pdiv_mask : Nat
  pdiv_shift : Nat
deriving DecidableEq, Repr

/-- Mask configuration established by `imx_clk_hw_pll_rt1170`: the struct is
`kzalloc`ed (every field starts at 0), then `stable_mask` and `gate_mask`
are assigned before the `switch`, and the per-variant fields inside it.
`hold_ring_off_mask` is assigned nowhere in that function, so it remains 0
for every variant; likewise `powerup_mask` remains 0 for the PLL1 case. -/
def pllConf : PllType → PllConf
  | .pllarm => ⟨ARMPLL_PWRUP_MASK, ARMPLL_CLKE_MASK, STABLE_MASK, GATE_MASK, 0,
      ARMPLL_DIV_MASK, ARMPLL_DIV_SHIFT, ARMPLL_PDIV_MASK, ARMPLL_PDIV_SHIFT⟩
  | .pll3 => ⟨SYSPLL3_PWRUP_MASK, SYSPLL_CLKE_MASK, STABLE_MASK, GATE_MASK, 0, 0, 0, 0, 0⟩
  | .pll2 => ⟨SYSPLL2_PWRUP_MASK, SYSPLL_CLKE_MASK, STABLE_MASK, GATE_MASK, 0, 0, 0, 0, 0⟩
  | .pll1 => ⟨0, SYSPLL_CLKE_MASK, STABLE_MASK, PLL1_GATE_MASK, 0, 0, 0, 0, 0⟩

/-- One observable hardware interaction of an operation. -/
inductive Event where
  | write (v : Nat)
  | delay (us : Nat)
  | pollStable (mask timeoutUs : Nat)
deriving DecidableEq, Repr

/-- Error returns of the driver (C `-EINVAL` / `-ETIMEDOUT`). -/
inductive ClkErr where
  | EINVAL
  | ETIMEDOUT
deriving DecidableEq, Repr

/-- The `tmout` selection shared by `clk_pllimxrt1170_wait_stable` and
`clk_pllimxrt1170_prepare` (if PLL2 then 500 else if PLL3 then 60 else if
PLLARM then 60).  In C, `tmout` stays uninitialized for PLL1, but neither
function is ever invoked on PLL1 (`clk_pll1_ops` registers neither
`.prepare` nor `.unprepare`); 0 is used as the placeholder here. -/
def lockTime : PllType → Nat
  | .pll2 => SYSPLL2_LOCK_TIME
  | .pll3 => SYSPLL3_LOCK_TIME
  | .pllarm => ARMPLL_LOCK_TIME
  | .pll1 => 0

/-- `clk_pllimxrt1170_is_prepared`: 0 unless both the stable and powerup
bits are set. -/
def clk_pllimxrt1170_is_prepared (c : PllConf) (val : Nat) : Bool :=
  if val &&& c.stable_mask = 0 ∨ val &&& c.powerup_mask = 0 then false
  else true

/-- `clk_pllimxrt1170_is_enabled`: 0 if the gate bit is set, or the stable
bit is clear, or the enable bit is clear, or the powerup bit is clear (as
masked tests against the per-variant masks); 1 otherwise. -/
def clk_pllimxrt1170_is_enabled (c : PllConf) (val : Nat) : Bool :=
  if val &&& c.gate_mask ≠ 0 ∨ val &&& c.stable_mask = 0 ∨
      val &&& c.enable_mask = 0 ∨ val &&& c.powerup_mask = 0 then false
  else true

/-- `clk_pllimxrt1170_prepare` followed by `clk_pllimxrt1170_wait_stable`:
given the initially read register value and the poll oracle, returns the
event trace, the C return value, and the final register value (the last
written value, with the stable bit asserted by hardware when the poll
succeeds). -/
def clk_pllimxrt1170_prepare (t : PllType) (val : Nat) (stableAsserts : Bool) :
    List Event × Except ClkErr Unit × Nat :=
  let c := pllConf t
  if val &&& c.powerup_mask ≠ 0 then
    ([], Except.ok (), val)
  else
    let v1 := ((val &&& compl32 c.stable_mask) ||| c.gate_mask) &&& compl32 c.enable_mask
    let v2 := v1 ||| (c.powerup_mask ||| c.hold_ring_off_mask)
    let v3 := v2 &&& compl32 c.hold_ring_off_mask
    let tmout := lockTime t
    ([Event.write v1, Event.delay 30, Event.write v2, Event.delay (tmout / 2),
      Event.write v3, Event.pollStable c.stable_mask tmout],
     if stableAsserts then Except.ok () else Except.error ClkErr.ETIMEDOUT,
     if stableAsserts then v3 ||| c.stable_mask else v3)

/-- `clk_pllimxrt1170_unprepare`: returns the written (final) register
value. -/
def clk_pllimxrt1170_unprepare (t : PllType) (val : Nat) : Nat :=
  let c := pllConf t
  ((val &&& compl32 c.stable_mask) ||| c.gate_mask) &&&
    compl32 (c.enable_mask ||| c.powerup_mask)

/-- `clk_pllimxrt1170_enable`: given the initially read register value,
returns the event trace (its conditional writes), the C return value, and
the final register value. The second conditional tests the locally updated
`val`, exactly as the C does. -/
def clk_pllimxrt1170_enable (t : PllType) (val : Nat) :
    List Event × Except ClkErr Unit × Nat :=
  let c := pllConf t
  if t ≠ PllType.pll1 ∧ val &&& c.powerup_mask = 0 then
    ([], Except.error ClkErr.EINVAL, val)
  else
    let s1 := if val &&& c.enable_mask = 0 then
        ([Event.write (val ||| c.enable_mask)], val ||| c.enable_mask)
      else ([], val)
    let s2 := if s1.2 &&& c.gate_mask ≠ 0 then
        ([Event.write (s1.2 &&& compl32 c.gate_mask)], s1.2 &&& compl32 c.gate_mask)
      else ([], s1.2)
    (s1.1 ++ s2.1, Except.ok (), s2.2)

/-- `clk_pllimxrt1170_disable`: returns the written (final) register
value. -/
def clk_pllimxrt1170_disable (t : PllType) (val : Nat) : Nat :=
  let c := pllConf t
  (val &&& compl32 c.enable_mask) ||| c.gate_mask

/-- `clk_pllarm_recalc_rate` (identical in clk-pll-imxrt1170.c and
clk-pllarm-imxrt1170.c, both using div mask 0xff / shift 0 and pdiv mask
GENMASK(16,15) / shift 15 and the same `pdiv_table`): extracts the divider
and post-divider-index fields from the control register, returns 0 when the
index is out of table range, else parent_rate × (div/2) / pdiv_table[idx]
in wrapping 32-bit arithmetic. -/
def clk_pllarm_recalc_rate (pll_ctrl parent_rate : Nat) : Nat :=
  let c := pllConf PllType.pllarm
  let div := (pll_ctrl &&& c.div_mask) >>> c.div_shift
  let pdiv_idx := (pll_ctrl &&& c.pdiv_mask) >>> c.pdiv_shift
  if pdiv_idx ≥ pdiv_table.length then 0
  else (parent_rate * (div / 2)) % U32_MOD / pdiv_table.getD pdiv_idx 0

/-- The fixed sys-PLL multiplier: `(pll->type == IMXRT1170_PLL2) ? 22 : 20`. -/
def sysFactor (t : PllType) : Nat :=
  if t = PllType.pll2 then 22 else 20

/-- `clk_pllsys_recalc_rate`: parent_rate × factor in wrapping 32-bit
arithmetic. -/
def clk_pllsys_recalc_rate (t : PllType) (parent_rate : Nat) : Nat :=
  (parent_rate * sysFactor t) % U32_MOD

/-- `clk_pllsys_set_rate`: 0 when the requested rate equals the computed
`u32 val = parent_rate * factor`, else -EINVAL. -/
def clk_pllsys_set_rate (t : PllType) (rate parent_rate : Nat) : Except ClkErr Unit :=
  let val := (parent_rate * sysFactor t) % U32_MOD
  if rate = val then Except.ok ()
  else Except.error ClkErr.EINVAL

/-- `clk_pllsys_round_rate`: returns the recalc value of the parent rate,
ignoring the requested rate. -/
def clk_pllsys_round_rate (t : PllType) (_rate parent_rate : Nat) : Nat :=
  clk_pllsys_recalc_rate t parent_rate

/-- `clk_pll1_recalc_rate`: constant 1 GHz.  The C function receives the
`clk_hw` (hence could read the register) and the parent rate but uses
neither; both are explicit ignored arguments here. -/
def clk_pll1_recalc_rate (_pll_ctrl _parent_rate : Nat) : Nat :=
  1000000000

/-- Spec-side formula for the Arm PLL rate, written from the specification
wording alone (for comparison with `clk_pllarm_recalc_rate`): result =
parent_rate × (divider/2) / post_divider with the post-divider looked up
in table {2,4,8,1} indexed 0–3, and rate 0 for an out-of-range
post-divider index. -/
def armPllRateSpec (parent_rate divField pdivIdx : Nat) : Nat :=
  if pdivIdx < pdiv_table.length then
    parent_rate * (divField / 2) / pdiv_table.getD pdivIdx 0
  else 0

/-! Bit-manipulation helper lemmas. -/

theorem testBit_of_and_two_pow_ne_zero {x k : Nat} (h : x &&& 2 ^ k ≠ 0) :
    x.testBit k = true := by
  by_contra hb
  rw [Nat.and_two_pow] at h
  rw [Bool.not_eq_true] at hb
  simp [hb] at h

theorem and_two_pow_ne_zero_of_testBit {x k : Nat} (h : x.testBit k = true) :
    x &&& 2 ^ k ≠ 0 := by
  rw [Nat.and_two_pow, h]
  have h2 := Nat.two_pow_pos k
  simp only [Bool.toNat_true, one_mul]
  omega

theorem lor_two_pow_eq_self {x k : Nat} (h : x.testBit k = true) :
    x ||| 2 ^ k = x := by
  apply Nat.eq_of_testBit_eq
  intro i
  rw [Nat.testBit_or, Nat.testBit_two_pow]
  by_cases hik : k = i
  · subst hik
    simp [h]
  · simp [hik]

theorem testBit_and_eq_false_of_and_eq_zero {x m : Nat} (h : x &&& m = 0)
    (i : Nat) : (x.testBit i && m.testBit i) = false := by
  rw [← Nat.testBit_and, h]
  exact Nat.zero_testBit i

theorem testBit_false_of_lt_u32 {x : Nat} (hx : x < U32_MOD) {i : Nat}
    (hi : ¬ i < 32) : x.testBit i = false := by
  apply Nat.testBit_lt_two_pow
  calc x < 2 ^ 32 := hx
    _ ≤ 2 ^ i := Nat.pow_le_pow_right (by norm_num) (by omega)

theorem land_compl32_eq_self {x m : Nat} (hx : x < U32_MOD) (h : x &&& m = 0) :
    x &&& compl32 m = x := by
  apply Nat.eq_of_testBit_eq
  intro i
  rw [Nat.testBit_and, compl32, U32_MAX, Nat.testBit_xor,
    Nat.testBit_two_pow_sub_one]
  by_cases hi : i < 32
  · have hbi := testBit_and_eq_false_of_and_eq_zero h i
    cases hx1 : x.testBit i <;> cases hm1 : m.testBit i <;> simp_all
  · simp [testBit_false_of_lt_u32 hx hi]

theorem lor_and_mask_self (x p : Nat) : (x ||| p) &&& p = p := by
  apply Nat.eq_of_testBit_eq
  intro i
  rw [Nat.testBit_and, Nat.testBit_or]
  cases hx1 : x.testBit i <;> cases hp1 : p.testBit i <;> rfl

theorem and_lt_u32 {m : Nat} (x : Nat) (hm : m < U32_MOD) : x &&& m < U32_MOD :=
  lt_of_le_of_lt Nat.and_le_right hm

theorem or_lt_u32 {x y : Nat} (hx : x < U32_MOD) (hy : y < U32_MOD) :
    x ||| y < U32_MOD :=
  Nat.or_lt_two_pow hx hy

theorem and_single_of_ne_zero {x k : Nat} (h : x &&& 2 ^ k ≠ 0) :
    x &&& 2 ^ k = 2 ^ k := by
  rw [Nat.and_two_pow] at h ⊢
  cases hb : x.testBit k
  · rw [hb] at h
    simp at h
  · simp

theorem compl32_and_self {g : Nat} (hg : g < U32_MOD) : compl32 g &&& g = 0 := by
  apply Nat.eq_of_testBit_eq
  intro i
  rw [Nat.testBit_and, compl32, U32_MAX, Nat.testBit_xor,
    Nat.testBit_two_pow_sub_one, Nat.zero_testBit]
  by_cases hi : i < 32
  · cases hgb : g.testBit i <;> simp [hi, hgb]
  · rw [testBit_false_of_lt_u32 hg hi]
    simp

theorem or_and_distrib (a b c : Nat) : (a ||| b) &&& c = (a &&& c) ||| (b &&& c) := by
  apply Nat.eq_of_testBit_eq
  intro i
  rw [Nat.testBit_and, Nat.testBit_or, Nat.testBit_or, Nat.testBit_and, Nat.testBit_and]
  cases a.testBit i <;> cases b.testBit i <;> cases c.testBit i <;> rfl

theorem mask_and_compl32 {m g : Nat} (hm : m < U32_MOD) (hmg : m &&& g = 0) :
    compl32 g &&& m = m := by
  rw [Nat.and_comm]
  exact land_compl32_eq_self hm hmg

theorem is_enabled_false_of_gate {c : PllConf} {val : Nat}
    (h : val &&& c.gate_mask ≠ 0) :
    clk_pllimxrt1170_is_enabled c val = false := by
  unfold clk_pllimxrt1170_is_enabled
  rw [if_pos (Or.inl h)]

theorem pllarm_pdiv_idx_lt (pll_ctrl : Nat) :
    (pll_ctrl &&& ARMPLL_PDIV_MASK) >>> ARMPLL_PDIV_SHIFT < pdiv_table.length := by
  have h1 : pll_ctrl &&& ARMPLL_PDIV_MASK ≤ ARMPLL_PDIV_MASK := Nat.and_le_right
  have h2 : (pll_ctrl &&& ARMPLL_PDIV_MASK) >>> ARMPLL_PDIV_SHIFT ≤
      ARMPLL_PDIV_MASK >>> ARMPLL_PDIV_SHIFT := by
    rw [Nat.shiftRight_eq_div_pow, Nat.shiftRight_eq_div_pow]
    exact Nat.div_le_div_right h1
  have h3 : ARMPLL_PDIV_MASK >>> ARMPLL_PDIV_SHIFT < pdiv_table.length := by decide
  omega

/-! Claim theorems. -/

/-- Claim C8: for the Pll1 variant, recalc_rate returns exactly
1_000_000_000 for every parent_rate (including 1, 24_000_000 and 999) and
every register state. -/
theorem pll1_recalc_rate_constant (pll_ctrl parent_rate : Nat) :
    clk_pll1_recalc_rate pll_ctrl parent_rate = 1000000000 ∧
    clk_pll1_recalc_rate pll_ctrl 1 = 1000000000 ∧
    clk_pll1_recalc_rate pll_ctrl 24000000 = 1000000000 ∧
    clk_pll1_recalc_rate pll_ctrl 999 = 1000000000 :=
  ⟨rfl, rfl, rfl, rfl⟩

/-- Claim C9: the Arm PLL post-divider index, extracted through the two-bit
mask GENMASK(16,15), is always in range 0–3, so the rate-0 branch of
`clk_pllarm_recalc_rate` is unreachable and the function always returns the
divider-formula value. -/
theorem pllarm_pdiv_index_in_range (pll_ctrl parent_rate : Nat) :
    (pll_ctrl &&& ARMPLL_PDIV_MASK) >>> ARMPLL_PDIV_SHIFT < pdiv_table.length ∧
    clk_pllarm_recalc_rate pll_ctrl parent_rate =
      (parent_rate * (((pll_ctrl &&& ARMPLL_DIV_MASK) >>> ARMPLL_DIV_SHIFT) / 2)) % U32_MOD /
        pdiv_table.getD ((pll_ctrl &&& ARMPLL_PDIV_MASK) >>> ARMPLL_PDIV_SHIFT) 0 := by
  refine ⟨pllarm_pdiv_idx_lt pll_ctrl, ?_⟩
  simp only [clk_pllarm_recalc_rate, pllConf]
  rw [if_neg (Nat.not_le.mpr (pllarm_pdiv_idx_lt pll_ctrl))]

/-- Claim C1: for the Arm PLL, recalc_rate returns
parent_rate × (divider/2) / pdiv_table[post_divider_index] with
pdiv_table = {2,4,8,1} indexed 0–3 and rate 0 on an out-of-range index
(the spec-side formula `armPllRateSpec`), whenever the 32-bit product does
not wrap; in particular divider field 100, post-divider index 0 and
parent_rate 24_000_000 give 600_000_000. -/
theorem pllarm_recalc_rate_formula (pll_ctrl parent_rate : Nat)
    (hnov : parent_rate * (((pll_ctrl &&& ARMPLL_DIV_MASK) >>> ARMPLL_DIV_SHIFT) / 2) < U32_MOD) :
    clk_pllarm_recalc_rate pll_ctrl parent_rate =
      armPllRateSpec parent_rate ((pll_ctrl &&& ARMPLL_DIV_MASK) >>> ARMPLL_DIV_SHIFT)
        ((pll_ctrl &&& ARMPLL_PDIV_MASK) >>> ARMPLL_PDIV_SHIFT) ∧
    clk_pllarm_recalc_rate 100 24000000 = 600000000 := by
  constructor
  · have hidx := pllarm_pdiv_idx_lt pll_ctrl
    simp only [clk_pllarm_recalc_rate, armPllRateSpec, pllConf]
    rw [if_neg (Nat.not_le.mpr hidx), if_pos hidx, Nat.mod_eq_of_lt hnov]
  · rfl

/-- Claim C1 witness: the theorem applied at divider field 100,
post-divider index 0, parent_rate 24_000_000. -/
theorem pllarm_recalc_rate_formula_witness :
    clk_pllarm_recalc_rate 100 24000000 =
      armPllRateSpec 24000000 ((100 &&& ARMPLL_DIV_MASK) >>> ARMPLL_DIV_SHIFT)
        ((100 &&& ARMPLL_PDIV_MASK) >>> ARMPLL_PDIV_SHIFT) :=
  (pllarm_recalc_rate_formula 100 24000000 (by decide)).1

/-- Claim C2: for the Sys PLL variants, set_rate succeeds exactly when the
requested rate equals parent_rate × factor (22 for Sys2, 20 otherwise) and
fails with -EINVAL (the spec's UnsupportedRate) otherwise, whenever the
32-bit product does not wrap; in particular, with parent_rate 24_000_000,
set_rate 528_000_000 succeeds on Sys2 and set_rate 500_000_000 fails. -/
theorem pllsys_set_rate_exact (t : PllType) (rate parent_rate : Nat)
    (hnov : parent_rate * sysFactor t < U32_MOD) :
    (clk_pllsys_set_rate t rate parent_rate = Except.ok () ↔
      rate = parent_rate * sysFactor t) ∧
    (rate ≠ parent_rate * sysFactor t →
      clk_pllsys_set_rate t rate parent_rate = Except.error ClkErr.EINVAL) ∧
    sysFactor PllType.pll2 = 22 ∧ sysFactor PllType.pll3 = 20 ∧
    clk_pllsys_set_rate PllType.pll2 528000000 24000000 = Except.ok () ∧
    clk_pllsys_set_rate PllType.pll2 500000000 24000000 = Except.error ClkErr.EINVAL := by
  refine ⟨?_, ?_, rfl, rfl, rfl, rfl⟩
  · unfold clk_pllsys_set_rate
    rw [Nat.mod_eq_of_lt hnov]
    by_cases h : rate = parent_rate * sysFactor t
    · simp [h]
    · simp [h]
  · intro h
    unfold clk_pllsys_set_rate
    rw [Nat.mod_eq_of_lt hnov]
    simp [h]

/-- Claim C2 witness: the theorem applied at the Sys2 variant with
parent_rate 24_000_000 and requested rate 528_000_000. -/
theorem pllsys_set_rate_exact_witness :
    clk_pllsys_set_rate PllType.pll2 528000000 24000000 = Except.ok () ↔
      528000000 = 24000000 * sysFactor PllType.pll2 :=
  (pllsys_set_rate_exact PllType.pll2 528000000 24000000 (by decide)).1

/-- Claim C3 (code-bug evidence): for the Arm variant starting from
register value 0 (powerup clear), prepare performs the three writes, the
30 µs settle delay, the half-lock-time delay and the full-lock-time stable
poll (returning -ETIMEDOUT when the stable bit never asserts), but the
second write raises only the powerup bit: `imx_clk_hw_pll_rt1170` never
assigns `hold_ring_off_mask`, so it is 0 for every variant, bit 12
(ARMPLL_HOLD_RING_OFF_MASK) stays clear, and the third write repeats the
second value instead of clearing ring-hold. -/
theorem pllarm_prepare_ring_hold_never_set :
    (clk_pllimxrt1170_prepare PllType.pllarm 0 true).1 =
      [Event.write 1073741824, Event.delay 30, Event.write 1073750016,
       Event.delay 30, Event.write 1073750016,
       Event.pollStable STABLE_MASK ARMPLL_LOCK_TIME] ∧
    (clk_pllimxrt1170_prepare PllType.pllarm 0 false).2.1 =
      Except.error ClkErr.ETIMEDOUT ∧
    (pllConf PllType.pllarm).hold_ring_off_mask = 0 ∧
    (pllConf PllType.pll2).hold_ring_off_mask = 0 ∧
    (pllConf PllType.pll3).hold_ring_off_mask = 0 ∧
    ARMPLL_HOLD_RING_OFF_MASK = BIT 12 ∧
    Nat.testBit 1073750016 12 = false :=
  ⟨by decide, rfl, rfl, rfl, rfl, rfl, by decide⟩

/-- Claim C5 counterexample: for the Pll1 variant with register value
0x20002000 (stable bit 29 set, enable bit 13 set, gate bit 14 clear) the
claim predicts is_enabled = true, but the code returns false, because
Pll1's `powerup_mask` is left 0 by `imx_clk_hw_pll_rt1170` and so the
`!(val & pll->powerup_mask)` test always fires. -/
theorem pll1_is_enabled_claim_cex :
    536879104 &&& (pllConf PllType.pll1).gate_mask = 0 ∧
    536879104 &&& (pllConf PllType.pll1).stable_mask ≠ 0 ∧
    536879104 &&& (pllConf PllType.pll1).enable_mask ≠ 0 ∧
    clk_pllimxrt1170_is_enabled (pllConf PllType.pll1) 536879104 = false := by
  decide

/-- Claim C5 (amended): for every variant, is_enabled is true iff the gate
bit is clear, the stable bit set, the enable bit set and the powerup bit
set, each tested against the variant's mask; since the Pll1 variant's
powerup mask is 0, its powerup test can never pass and is_enabled is
identically false for Pll1. -/
theorem is_enabled_iff_masks (t : PllType) (val : Nat) :
    (clk_pllimxrt1170_is_enabled (pllConf t) val = true ↔
      (val &&& (pllConf t).gate_mask = 0 ∧ val &&& (pllConf t).stable_mask ≠ 0 ∧
       val &&& (pllConf t).enable_mask ≠ 0 ∧ val &&& (pllConf t).powerup_mask ≠ 0)) ∧
    clk_pllimxrt1170_is_enabled (pllConf PllType.pll1) val = false := by
  constructor
  · unfold clk_pllimxrt1170_is_enabled
    by_cases h : val &&& (pllConf t).gate_mask ≠ 0 ∨ val &&& (pllConf t).stable_mask = 0 ∨
        val &&& (pllConf t).enable_mask = 0 ∨ val &&& (pllConf t).powerup_mask = 0
    · rw [if_pos h]
      simp only [Bool.false_eq_true, false_iff]
      tauto
    · rw [if_neg h]
      push_neg at h
      constructor
      · intro _
        tauto
      · intro _
        rfl
  · unfold clk_pllimxrt1170_is_enabled
    have hz : val &&& (pllConf PllType.pll1).powerup_mask = 0 := Nat.and_zero val
    rw [if_pos (Or.inr (Or.inr (Or.inr hz)))]

/-! Per-variant mask facts used by the remaining claims. -/

theorem enable_mask_two_pow (t : PllType) : ∃ k, (pllConf t).enable_mask = 2 ^ k := by
  cases t
  · exact ⟨14, rfl⟩
  · exact ⟨13, rfl⟩
  · exact ⟨13, rfl⟩
  · exact ⟨13, rfl⟩

theorem enable_mask_lt (t : PllType) : (pllConf t).enable_mask < U32_MOD := by
  cases t <;> decide

theorem gate_mask_lt (t : PllType) : (pllConf t).gate_mask < U32_MOD := by
  cases t <;> decide

theorem powerup_mask_lt (t : PllType) : (pllConf t).powerup_mask < U32_MOD := by
  cases t <;> decide

theorem gate_mask_ne_zero (t : PllType) : (pllConf t).gate_mask ≠ 0 := by
  cases t <;> decide

theorem powerup_mask_ne_zero (t : PllType) (ht : t ≠ PllType.pll1) :
    (pllConf t).powerup_mask ≠ 0 := by
  cases t
  · decide
  · exact absurd rfl ht
  · decide
  · decide

theorem enable_gate_disjoint (t : PllType) :
    (pllConf t).enable_mask &&& (pllConf t).gate_mask = 0 := by
  cases t <;> decide

theorem gate_enable_disjoint (t : PllType) :
    (pllConf t).gate_mask &&& (pllConf t).enable_mask = 0 := by
  cases t <;> decide

theorem powerup_enable_disjoint (t : PllType) :
    (pllConf t).powerup_mask &&& (pllConf t).enable_mask = 0 := by
  cases t <;> decide

theorem gate_powerup_disjoint (t : PllType) :
    (pllConf t).gate_mask &&& (pllConf t).powerup_mask = 0 := by
  cases t <;> decide

theorem stable_enable_disjoint (t : PllType) :
    (pllConf t).stable_mask &&& (pllConf t).enable_mask = 0 := by
  cases t <;> decide

theorem gate_stable_disjoint (t : PllType) :
    (pllConf t).gate_mask &&& (pllConf t).stable_mask = 0 := by
  cases t <;> decide

theorem stable_powerup_disjoint (t : PllType) :
    (pllConf t).stable_mask &&& (pllConf t).powerup_mask = 0 := by
  cases t <;> decide

theorem gate_ep_disjoint (t : PllType) :
    (pllConf t).gate_mask &&& ((pllConf t).enable_mask ||| (pllConf t).powerup_mask) = 0 := by
  cases t <;> decide

theorem hold_ring_off_mask_zero (t : PllType) : (pllConf t).hold_ring_off_mask = 0 := by
  cases t <;> rfl

theorem compl32_lt {m : Nat} (hm : m < U32_MOD) : compl32 m < U32_MOD :=
  Nat.xor_lt_two_pow (by decide) hm

/-- Claim C7: for every variant and every starting register value, disable
sets the gate bit, clears the enable bit, and leaves the powerup bit — and
with it the node's powered (is_prepared) state — unchanged. -/
theorem pll_disable_frame (t : PllType) (val : Nat) :
    clk_pllimxrt1170_disable t val &&& (pllConf t).gate_mask = (pllConf t).gate_mask ∧
    clk_pllimxrt1170_disable t val &&& (pllConf t).enable_mask = 0 ∧
    clk_pllimxrt1170_disable t val &&& (pllConf t).powerup_mask =
      val &&& (pllConf t).powerup_mask ∧
    clk_pllimxrt1170_is_prepared (pllConf t) (clk_pllimxrt1170_disable t val) =
      clk_pllimxrt1170_is_prepared (pllConf t) val := by
  have hd : clk_pllimxrt1170_disable t val =
      (val &&& compl32 (pllConf t).enable_mask) ||| (pllConf t).gate_mask := rfl
  have hp : clk_pllimxrt1170_disable t val &&& (pllConf t).powerup_mask =
      val &&& (pllConf t).powerup_mask := by
    rw [hd, or_and_distrib, gate_powerup_disjoint, Nat.or_zero, Nat.and_assoc,
      mask_and_compl32 (powerup_mask_lt t) (powerup_enable_disjoint t)]
  have hs : clk_pllimxrt1170_disable t val &&& (pllConf t).stable_mask =
      val &&& (pllConf t).stable_mask := by
    rw [hd, or_and_distrib, gate_stable_disjoint, Nat.or_zero, Nat.and_assoc,
      mask_and_compl32 ((by cases t <;> decide) : (pllConf t).stable_mask < U32_MOD)
        (stable_enable_disjoint t)]
  refine ⟨?_, ?_, hp, ?_⟩
  · rw [hd]
    exact lor_and_mask_self _ _
  · rw [hd, or_and_distrib, gate_enable_disjoint, Nat.or_zero, Nat.and_assoc,
      compl32_and_self (enable_mask_lt t), Nat.and_zero]
  · unfold clk_pllimxrt1170_is_prepared
    rw [hs, hp]

/-- Claim C10: for every variant and every starting register value,
is_enabled reports false immediately after disable and immediately after
unprepare, because both leave the gate bit set and is_enabled requires it
clear. -/
theorem pll_disable_unprepare_not_enabled (t : PllType) (val : Nat) :
    clk_pllimxrt1170_is_enabled (pllConf t) (clk_pllimxrt1170_disable t val) = false ∧
    clk_pllimxrt1170_is_enabled (pllConf t) (clk_pllimxrt1170_unprepare t val) = false := by
  constructor
  · apply is_enabled_false_of_gate
    have h1 : clk_pllimxrt1170_disable t val &&& (pllConf t).gate_mask =
        (pllConf t).gate_mask := lor_and_mask_self _ _
    rw [h1]
    exact gate_mask_ne_zero t
  · apply is_enabled_false_of_gate
    have hu : clk_pllimxrt1170_unprepare t val =
        ((val &&& compl32 (pllConf t).stable_mask) ||| (pllConf t).gate_mask) &&&
          compl32 ((pllConf t).enable_mask ||| (pllConf t).powerup_mask) := rfl
    rw [hu, Nat.and_assoc,
      mask_and_compl32 (gate_mask_lt t) (gate_ep_disjoint t), lor_and_mask_self]
    exact gate_mask_ne_zero t

/-- Claim C4: for every variant other than Pll1, enable on a node whose
powerup bit is clear fails with -EINVAL (the spec's InvalidState) and
performs no register write; otherwise (powerup bit set, or the Pll1
variant) enable succeeds and leaves the enable bit set and the gate bit
clear in the register. -/
theorem pll_enable_requires_powerup (t : PllType) (val : Nat) :
    (t ≠ PllType.pll1 → val &&& (pllConf t).powerup_mask = 0 →
      clk_pllimxrt1170_enable t val = ([], Except.error ClkErr.EINVAL, val)) ∧
    ((t = PllType.pll1 ∨ val &&& (pllConf t).powerup_mask ≠ 0) →
      (clk_pllimxrt1170_enable t val).2.1 = Except.ok () ∧
      (clk_pllimxrt1170_enable t val).2.2 &&& (pllConf t).enable_mask =
        (pllConf t).enable_mask ∧
      (clk_pllimxrt1170_enable t val).2.2 &&& (pllConf t).gate_mask = 0) := by
  constructor
  · intro ht hp
    unfold clk_pllimxrt1170_enable
    rw [if_pos ⟨ht, hp⟩]
  · intro h
    have hcond : ¬(t ≠ PllType.pll1 ∧ val &&& (pllConf t).powerup_mask = 0) := by
      tauto
    obtain ⟨k, hk⟩ := enable_mask_two_pow t
    simp only [clk_pllimxrt1170_enable]
    rw [if_neg hcond]
    by_cases h1 : val &&& (pllConf t).enable_mask = 0
    · rw [if_pos h1]
      dsimp only
      by_cases h2 : (val ||| (pllConf t).enable_mask) &&& (pllConf t).gate_mask ≠ 0
      · rw [if_pos h2]
        refine ⟨rfl, ?_, ?_⟩
        · rw [Nat.and_assoc,
            mask_and_compl32 (enable_mask_lt t) (enable_gate_disjoint t),
            lor_and_mask_self]
        · rw [Nat.and_assoc, compl32_and_self (gate_mask_lt t), Nat.and_zero]
      · rw [if_neg h2]
        rw [not_ne_iff] at h2
        exact ⟨rfl, lor_and_mask_self val (pllConf t).enable_mask, h2⟩
    · rw [if_neg h1]
      dsimp only
      have hv_e : val &&& (pllConf t).enable_mask = (pllConf t).enable_mask := by
        rw [hk] at h1 ⊢
        exact and_single_of_ne_zero h1
      by_cases h2 : val &&& (pllConf t).gate_mask ≠ 0
      · rw [if_pos h2]
        refine ⟨rfl, ?_, ?_⟩
        · rw [Nat.and_assoc,
            mask_and_compl32 (enable_mask_lt t) (enable_gate_disjoint t), hv_e]
        · rw [Nat.and_assoc, compl32_and_self (gate_mask_lt t), Nat.and_zero]
      · rw [if_neg h2]
        rw [not_ne_iff] at h2
        exact ⟨rfl, hv_e, h2⟩

/-- Claim C4 witness: the theorem applied to the Arm variant with register
value 0 (powerup clear): enable fails with -EINVAL and writes nothing. -/
theorem pll_enable_requires_powerup_witness :
    clk_pllimxrt1170_enable PllType.pllarm 0 = ([], Except.error ClkErr.EINVAL, 0) :=
  (pll_enable_requires_powerup PllType.pllarm 0).1 (by decide) (by decide)

theorem prepare_final_powered (t : PllType) (ht : t ≠ PllType.pll1) (v0 : Nat)
    (b0 : Bool) :
    (clk_pllimxrt1170_prepare t v0 b0).2.2 &&& (pllConf t).powerup_mask ≠ 0 := by
  by_cases h0 : v0 &&& (pllConf t).powerup_mask ≠ 0
  · have hfin : (clk_pllimxrt1170_prepare t v0 b0).2.2 = v0 := by
      unfold clk_pllimxrt1170_prepare
      rw [if_pos h0]
    rw [hfin]
    exact h0
  · unfold clk_pllimxrt1170_prepare
    rw [if_neg h0]
    dsimp only
    rw [hold_ring_off_mask_zero, Nat.or_zero]
    have hv1lt : ((v0 &&& compl32 (pllConf t).stable_mask) ||| (pllConf t).gate_mask) &&&
        compl32 (pllConf t).enable_mask < U32_MOD :=
      and_lt_u32 _ (compl32_lt (enable_mask_lt t))
    have hv2lt : (((v0 &&& compl32 (pllConf t).stable_mask) ||| (pllConf t).gate_mask) &&&
        compl32 (pllConf t).enable_mask) ||| (pllConf t).powerup_mask < U32_MOD :=
      or_lt_u32 hv1lt (powerup_mask_lt t)
    rw [land_compl32_eq_self hv2lt (Nat.and_zero _)]
    have hv3p : ((((v0 &&& compl32 (pllConf t).stable_mask) ||| (pllConf t).gate_mask) &&&
        compl32 (pllConf t).enable_mask) ||| (pllConf t).powerup_mask) &&&
        (pllConf t).powerup_mask = (pllConf t).powerup_mask :=
      lor_and_mask_self _ _
    cases b0
    · rw [if_neg Bool.false_ne_true, hv3p]
      exact powerup_mask_ne_zero t ht
    · rw [if_pos rfl, or_and_distrib, hv3p, stable_powerup_disjoint, Nat.or_zero]
      exact powerup_mask_ne_zero t ht

/-- Claim C6: for every variant with a powerup phase, prepare on a node
whose powerup bit is already set performs no register writes, leaves the
register unchanged, and returns success immediately; consequently, running
prepare right after a previous prepare writes nothing the second time. -/
theorem pll_prepare_idempotent (t : PllType) (ht : t ≠ PllType.pll1) (val : Nat)
    (b : Bool) (h : val &&& (pllConf t).powerup_mask ≠ 0) :
    clk_pllimxrt1170_prepare t val b = ([], Except.ok (), val) ∧
    ∀ v0 b0,
      (clk_pllimxrt1170_prepare t (clk_pllimxrt1170_prepare t v0 b0).2.2 b).1 = [] ∧
      (clk_pllimxrt1170_prepare t (clk_pllimxrt1170_prepare t v0 b0).2.2 b).2.1 =
        Except.ok () := by
  have hnoop : ∀ w, w &&& (pllConf t).powerup_mask ≠ 0 →
      clk_pllimxrt1170_prepare t w b = ([], Except.ok (), w) := by
    intro w hw
    unfold clk_pllimxrt1170_prepare
    rw [if_pos hw]
  refine ⟨hnoop val h, ?_⟩
  intro v0 b0
  rw [hnoop _ (prepare_final_powered t ht v0 b0)]
  exact ⟨rfl, rfl⟩

/-- Claim C6 witness: the theorem applied to the Arm variant with register
value 8192 (only the powerup bit 13 set). -/
theorem pll_prepare_idempotent_witness :
    clk_pllimxrt1170_prepare PllType.pllarm 8192 true = ([], Except.ok (), 8192) :=
  (pll_prepare_idempotent PllType.pllarm (by decide) 8192 true (by decide)).1
